import Mathlib

/-!
Verification development for the eocis-portal/data-processor task-execution
core: the Daemon scheduling loop (`src/data_processor/daemon/daemon.py`),
the TaskRunner mapping (`task_runner.py`) and the ProcessRunner /
ProcessMonitor subprocess machinery (`process_runner.py`).

Mutable Python objects are embedded as immutable values with explicit state
passing; side effects (persistence calls, queue operations, job
notifications, OS signals, output sinks) are recorded as explicit effect
traces in the order the code performs them.
-/

namespace DataProcessor

/-- Lifecycle state of a task.  The terminal `failed` state carries the
error string passed to `set_failed`. -/
inductive TaskStatus
  | queued
  | running
  | completed
  | failed (reason : String)
  deriving DecidableEq, Repr

/-- A value appearing in a task specification, as discriminated by
`task_runner.py` lines 50-53: Python lists of strings, numeric values, and
everything else (strings).  An `Int` covers Python `int`; since IEEE float
printing is not embedded, a Python `float` is carried together with its
standard decimal string rendering `render` (the value of `str(v)`). -/
inductive SpecValue
  | vstr (s : String)
  | vlist (l : List String)
  | vint (n : Int)
  | vfloat (render : String)
  deriving DecidableEq, Repr

/-- A task, as consumed by the daemon.  Modelled from the spec: the `Task`
class lives in the external `eocis_data_manager` package (an external
collaborator); per spec section 3 it holds the identity pair (job id, task
name), a type tag, a specification mapping, a lifecycle state and a retry
counter. -/
structure Task where
  job_id : String
  task_name : String
  task_type : String
  spec : List (String × SpecValue)
  status : TaskStatus
  retry_count : Nat
  deriving DecidableEq, Repr

namespace Task

/-- Modelled from the spec: `task.set_running()` transitions the claimed
task to `running` (spec section 4.2 step 3). -/
def set_running (t : Task) : Task :=
  { t with status := TaskStatus.running }

/-- Modelled from the spec: `task.set_completed()` marks the task
`completed` (spec section 4.2 step 5). -/
def set_completed (t : Task) : Task :=
  { t with status := TaskStatus.completed }

/-- Modelled from the spec: `task.set_failed(reason)` marks the task
`failed` carrying the given reason (spec section 4.2 step 6). -/
def set_failed (t : Task) (reason : String) : Task :=
  { t with status := TaskStatus.failed reason }

/-- Modelled from the spec: `task.retry()` increments the retry counter and
marks the task `queued` (spec section 4.2 step 6: "increment retry count,
mark task `queued`"). -/
def retry (t : Task) : Task :=
  { t with status := TaskStatus.queued, retry_count := t.retry_count + 1 }

/-- `task.get_retry_count()`. -/
def get_retry_count (t : Task) : Nat := t.retry_count

end Task

/-! ### Environment construction (`task_runner.py` lines 41-54)

A Python `dict` of environment variables is embedded as an association
list with insertion-order semantics: `env[k] = v` overwrites an existing
binding in place, otherwise appends. -/

/-- Lookup of a key in the environment dict (first binding wins; the
construction below keeps keys unique). -/
def envGet : List (String × String) → String → Option String
  | [], _ => none
  | (k, v) :: rest, key => if k = key then some v else envGet rest key

/-- Python dict membership `k in env`. -/
def envHasKey (env : List (String × String)) (key : String) : Bool :=
  env.any (fun p => p.1 = key)

/-- Python dict assignment `env[k] = v`: overwrite the binding in place if
the key is present, otherwise append the new binding. -/
def envSet (env : List (String × String)) (key v : String) : List (String × String) :=
  if envHasKey env key then
    env.map (fun p => if p.1 = key then (key, v) else p)
  else
    env ++ [(key, v)]

/-- The fixed base environment built at `task_runner.py` lines 44-48.
`condaExists` records the result of the `os.path.exists` probe on the
miniconda path (line 42), which picks between two fixed constant paths. -/
def baseEnv (condaExists : Bool) : List (String × String) :=
  [("PYTHONPATH", "/home/dev/github/data-processor/src"),
   ("CONDA_PATH",
     if condaExists then "/home/dev/miniconda3/bin/conda"
     else "/home/dev/anaconda3/bin/conda"),
   ("OUT_PATH", "/tmp")]

/-- Value coercion of `task_runner.py` lines 50-53: a list joins its
elements with ",", an int or float renders as its decimal string, and any
other value passes through unchanged. -/
def coerceValue : SpecValue → String
  | SpecValue.vstr s => s
  | SpecValue.vlist l => String.intercalate "," l
  | SpecValue.vint n => toString n
  | SpecValue.vfloat r => r

/-- The environment handed to the subprocess: the base environment overlaid
with one `env[k] = coerced v` assignment per specification entry, in
specification order (`task_runner.py` lines 49-54). -/
def buildEnv (condaExists : Bool) (spec : List (String × SpecValue)) :
    List (String × String) :=
  spec.foldl (fun e kv => envSet e kv.1 (coerceValue kv.2)) (baseEnv condaExists)

/-- The environment actually passed to `subprocess.Popen` via
`env=self.env_vars` (`process_runner.py` line 73): the parent process's own
environment `parentEnv` is an input of the launch but is never consulted —
`Popen` with an explicit `env` replaces the environment wholesale. -/
def subprocessEnv (parentEnv : List (String × String)) (condaExists : Bool)
    (spec : List (String × SpecValue)) : List (String × String) :=
  buildEnv condaExists spec

/-! ### ProcessRunner (`process_runner.py` lines 48-113) -/

/-- Constructor state of a `ProcessRunner` relevant to its behaviour: the
fields set in `ProcessRunner.__init__` (lines 50-64).  The output handler
is embedded as a presence flag plus the trace of lines forwarded to it. -/
structure ProcessRunnerState where
  cmd : String
  env_vars : List (String × String)
  name : String
  echo_stdout : Bool
  log_path : Option String
  working_dir : Option String
  timeout : Int
  timed_out : Bool
  hasHandler : Bool
  deriving DecidableEq, Repr

/-- `ProcessRunner.__init__` with the Python default arguments
`echo_stdout=True, log_path=None, working_dir=None, timeout=-1,
output_handler=None`; `timed_out` starts `False` (line 63). -/
def ProcessRunner.initDefault (cmd : String) (env_vars : List (String × String))
    (name : String) : ProcessRunnerState :=
  { cmd := cmd, env_vars := env_vars, name := name, echo_stdout := true,
    log_path := none, working_dir := none, timeout := -1, timed_out := false,
    hasHandler := false }

/-- Whether `ProcessRunner.run` starts a `ProcessMonitor` (line 69:
`if self.timeout > 0`). -/
def monitorStarted (pr : ProcessRunnerState) : Bool :=
  decide (pr.timeout > 0)

/-- The observable behaviour of one subprocess: the sequence of
`readline()` results consumed by the read loop while the process was
alive, the single final `read()` that drains trailing buffered output
after exit (line 79), and the exit code eventually reported. -/
structure ProcessBehavior where
  reads : List String
  drain : String
  exit_code : Int
  deriving DecidableEq, Repr

/-- Accumulated output-sink traces of a run: lines printed to the console,
strings written to the log file, and lines forwarded to the output
handler, each in the order the code produced them. -/
structure OutputState where
  console : List String
  logWrites : List String
  handled : List String
  deriving DecidableEq, Repr

/-- The console line format of `process_runner.py` line 108. -/
def consoleLine (name pid out : String) : String :=
  "[" ++ name ++ ":" ++ pid ++ "]: " ++ out

/-- Lines 105-106 of `handle_output`: `output.endswith("\n")` tests the
last character and `output[:-1]` drops it, expressed on the character
sequence of the string. -/
def stripNL (s : String) : String :=
  if s.data.getLast? = some (Char.ofNat 10) then String.mk s.data.dropLast else s

/-- `ProcessRunner.handle_output` (lines 103-112): a falsy (empty) chunk is
ignored; otherwise one trailing newline is stripped, then in order the
line is echoed to the console (if `echo_stdout`), appended to the log file
as one newline-terminated write (if a log file is open), and forwarded to
the output handler (if present). -/
def handle_output (pr : ProcessRunnerState) (pid : String) (st : OutputState)
    (output : String) : OutputState :=
  if output = "" then st
  else
    let out := stripNL output
    let st1 := if pr.echo_stdout then
        { st with console := st.console ++ [consoleLine pr.name pid out] }
      else st
    let st2 := if pr.log_path.isSome then
        { st1 with logWrites := st1.logWrites ++ [out ++ "\n"] }
      else st1
    if pr.hasHandler then { st2 with handled := st2.handled ++ [out] } else st2

/-- The read loop of `ProcessRunner.run` (lines 75-77): each `readline()`
result is passed to `handle_output` in order, until `poll()` reports an
exit code. -/
def processLoop (pr : ProcessRunnerState) (pid : String) :
    List String → OutputState → OutputState
  | [], st => st
  | r :: rs, st => processLoop pr pid rs (handle_output pr pid st r)

/-- The complete output handling of one `ProcessRunner.run`: the read loop
over the alive-time `readline()` results followed by exactly one drain
`handle_output(self.sub.stdout.read())` (line 79). -/
def ProcessRunner.runOutputs (pr : ProcessRunnerState) (pid : String)
    (beh : ProcessBehavior) : OutputState :=
  handle_output pr pid (processLoop pr pid beh.reads ⟨[], [], []⟩) beh.drain

/-- The `(returncode, timed_out)` pair returned by `ProcessRunner.run`
(line 87).  `timed_out` is set only inside `timeout_if_not_complete`,
which only the monitor invokes: it requires a monitor to have been started
(`timeout > 0`), the deadline to have expired before the runner released
the monitor, and no exit code recorded at expiry (line 93). -/
def ProcessRunner.runOutcome (pr : ProcessRunnerState) (beh : ProcessBehavior)
    (monitorExpired rcNoneAtExpiry : Bool) : Int × Bool :=
  (beh.exit_code, monitorStarted pr && monitorExpired && rcNoneAtExpiry)

/-! ### ProcessMonitor (`process_runner.py` lines 26-45, 92-101) -/

/-- An OS-level action the watchdog can perform on the process group. -/
inductive MonitorAction
  | sigterm_pg
  | grace_sleep (seconds : Nat)
  | sigkill_pg
  deriving DecidableEq, Repr

/-- Outcome of a watchdog code path: whether the runner's `timed_out` flag
was set, the signal/sleep actions attempted in order, and whether an
exception propagates out of the call. -/
structure MonitorResult where
  timed_out : Bool
  actions : List MonitorAction
  raised : Bool
  deriving DecidableEq, Repr

/-- `ProcessRunner.timeout_if_not_complete` (lines 92-101): only when no
exit code has been recorded, set `timed_out`, SIGTERM the process group,
sleep the fixed 5 second grace period, then SIGKILL the process group with
any error of the SIGKILL swallowed by `try ... except: pass`.
`sigterm_raises` / `sigkill_raises` say whether the respective `os.killpg`
raises (e.g. the process group is already dead); a SIGTERM error is not
caught in this function and propagates to the caller. -/
def timeout_if_not_complete (return_code : Option Int)
    (sigterm_raises sigkill_raises : Bool) : MonitorResult :=
  match return_code with
  | some _ => ⟨false, [], false⟩
  | none =>
    if sigterm_raises then ⟨true, [MonitorAction.sigterm_pg], true⟩
    else ⟨true, [MonitorAction.sigterm_pg, MonitorAction.grace_sleep 5,
                 MonitorAction.sigkill_pg], false⟩

/-- `ProcessMonitor.run` (lines 38-45): `released` says whether the runner
released the lock (`set_done`) before the `timeout`-bounded acquire gave
up.  If released, the monitor exits with no side effects; otherwise it
calls `timeout_if_not_complete`, and any exception from it is caught and
printed (lines 44-45), never propagated. -/
def ProcessMonitor.run (released : Bool) (return_code : Option Int)
    (sigterm_raises sigkill_raises : Bool) : MonitorResult :=
  if released then ⟨false, [], false⟩
  else
    let r := timeout_if_not_complete return_code sigterm_raises sigkill_raises
    ⟨r.timed_out, r.actions, false⟩

/-! ### TaskRunner (`task_runner.py` lines 26-63) -/

/-- Script selection of `task_runner.py` lines 56-59: type tag "regrid"
selects the regrid runner script, every other tag the subset runner
script.  `moduleDir` stands for `thisdir`, the directory containing
`task_runner.py`. -/
def TaskRunner.selectScript (moduleDir task_type : String) : String :=
  if task_type = "regrid" then moduleDir ++ "/regrid_task_runner.sh"
  else moduleDir ++ "/subset_task_runner.sh"

/-- The `ProcessRunner` constructed by `TaskRunner.run` (line 61):
`ProcessRunner(cmd, name=name, env_vars=env)` with every other
constructor argument left at its default. -/
def TaskRunner.makeRunner (moduleDir : String) (condaExists : Bool)
    (task : Task) : ProcessRunnerState :=
  ProcessRunner.initDefault (TaskRunner.selectScript moduleDir task.task_type)
    (buildEnv condaExists task.spec) task.task_name

/-- The boolean result of `TaskRunner.run` (lines 62-63):
`retcode == 0 and not timedout`. -/
def TaskRunner.runSuccess (moduleDir : String) (condaExists : Bool) (task : Task)
    (beh : ProcessBehavior) (monitorExpired rcNoneAtExpiry : Bool) : Bool :=
  let rc_to := ProcessRunner.runOutcome (TaskRunner.makeRunner moduleDir condaExists task)
    beh monitorExpired rcNoneAtExpiry
  decide (rc_to.1 = 0) && !rc_to.2

/-! ### Daemon (`daemon.py` lines 29-86)

The calls the daemon makes on its collaborators are recorded as an effect
trace, in program order.  Modelled from the spec (section 4.1), since the
collaborators live in the external `eocis_data_manager` package:
`jo.update_task` persists a task's current state (`persist_task_state`),
`jo.queue_task` re-admits a task to the queue (`requeue_task`),
`job_manager.update_job` asks the job manager to recompute aggregate job
status (`notify_job_progress`), and `job_manager.zip_results` packages a
completed task's outputs. -/

/-- One observable call made by the daemon on its collaborators. -/
inductive DaemonEffect
  | update_task (t : Task)
  | queue_task (job_id : String) (task_name : String)
  | zip_results (t : Task)
  | update_job (job_id : String)
  deriving DecidableEq, Repr

/-- Whether an effect is the job-progress notification. -/
def isUpdateJob : DaemonEffect → Bool
  | DaemonEffect.update_job _ => true
  | _ => false

/-- `Daemon.run_task` (`daemon.py` lines 68-86), given the boolean outcome
`ok` of `TaskRunner.run`: on success mark completed, persist, return True;
on failure read the retry count, and either retry (increment + requeue +
persist) when below `max_retries`, or mark failed with reason
"Unknown error" and persist.  Returns (returned bool, final task, effect
trace in program order). -/
def Daemon.run_task (max_retries : Nat) (task : Task) (ok : Bool) :
    Bool × Task × List DaemonEffect :=
  if ok then
    let t := task.set_completed
    (true, t, [DaemonEffect.update_task t])
  else
    let retry_count := task.get_retry_count
    if retry_count < max_retries then
      let t := task.retry
      (false, t, [DaemonEffect.queue_task task.job_id task.task_name,
                  DaemonEffect.update_task t])
    else
      let t := task.set_failed "Unknown error"
      (false, t, [DaemonEffect.update_task t])

/-- One iteration of the `Daemon.run` loop (`daemon.py` lines 50-66) for
the case where `get_next_task` returned the task: mark it running and
persist, run it, then `zip_results` if it succeeded, and finally —
unconditionally for every claimed task — `update_job`.  Returns the final
task value and the full effect trace of the iteration. -/
def Daemon.runIteration (max_retries : Nat) (task : Task) (ok : Bool) :
    Task × List DaemonEffect :=
  let t1 := task.set_running
  let r := Daemon.run_task max_retries t1 ok
  (r.2.1,
    DaemonEffect.update_task t1 :: r.2.2
      ++ (if r.1 then [DaemonEffect.zip_results r.2.1] else [])
      ++ [DaemonEffect.update_job task.job_id])

/-- Outcome of one loop iteration when the subprocess lifecycle may raise:
the effects performed before any exception, the last task value, and
`escaped = some msg` when an exception propagates out of the iteration
(and hence out of `Daemon.run`, killing the daemon thread: the loop body
contains no try/except). -/
structure IterationOutcome where
  effects : List DaemonEffect
  finalTask : Task
  escaped : Option String
  deriving DecidableEq, Repr

/-- `TaskRunner.run` with a possible Python exception from the subprocess
lifecycle: `subprocess.Popen` (`process_runner.py` lines 73-74) is not
guarded by any try/except in `ProcessRunner.run`, `TaskRunner.run` or
`Daemon.run`, so a launch failure such as `FileNotFoundError` for a
missing executable propagates as `Except.error`. -/
def TaskRunner.runE (launchError : Option String) (moduleDir : String)
    (condaExists : Bool) (task : Task) (beh : ProcessBehavior)
    (monitorExpired rcNoneAtExpiry : Bool) : Except String Bool :=
  match launchError with
  | some e => Except.error e
  | none => Except.ok (TaskRunner.runSuccess moduleDir condaExists task beh
      monitorExpired rcNoneAtExpiry)

/-- One iteration of the `Daemon.run` loop threading exceptions: the task
is marked running and persisted (lines 58-59), then `run_task` executes.
If the subprocess lifecycle raises, no further effect happens and the
exception escapes the iteration — `daemon.py` has no handler. -/
def Daemon.runIterationE (max_retries : Nat) (task : Task)
    (runResult : Except String Bool) : IterationOutcome :=
  let t1 := task.set_running
  match runResult with
  | Except.error e => ⟨[DaemonEffect.update_task t1], t1, some e⟩
  | Except.ok ok =>
    let r := Daemon.runIteration max_retries task ok
    ⟨r.2, r.1, none⟩

/-! ### Lemmas about the environment dict embedding -/

theorem envHasKey_iff_mem (e : List (String × String)) (k : String) :
    envHasKey e k = true ↔ k ∈ e.map Prod.fst := by
  simp [envHasKey, List.any_eq_true, List.mem_map]

theorem keys_map_overwrite (e : List (String × String)) (k v : String) :
    (e.map (fun p => if p.1 = k then (k, v) else p)).map Prod.fst
      = e.map Prod.fst := by
  induction e with
  | nil => rfl
  | cons p rest ih =>
    by_cases hpk : p.1 = k <;> simp [hpk, ih]

theorem keys_envSet (e : List (String × String)) (k v : String) :
    (envSet e k v).map Prod.fst =
      if envHasKey e k then e.map Prod.fst else e.map Prod.fst ++ [k] := by
  unfold envSet
  by_cases h : envHasKey e k
  · rw [if_pos h, if_pos h, keys_map_overwrite]
  · rw [if_neg h, if_neg h, List.map_append]
    rfl

theorem mem_keys_envSet (e : List (String × String)) (k v k2 : String) :
    k2 ∈ (envSet e k v).map Prod.fst ↔ k2 ∈ e.map Prod.fst ∨ k2 = k := by
  rw [keys_envSet]
  by_cases h : envHasKey e k
  · rw [if_pos h]
    constructor
    · exact Or.inl
    · rintro (hm | rfl)
      · exact hm
      · exact (envHasKey_iff_mem e k2).1 h
  · rw [if_neg h]
    simp

theorem envGet_map_overwrite (e : List (String × String)) (k v : String)
    (h : envHasKey e k = true) :
    envGet (e.map (fun p => if p.1 = k then (k, v) else p)) k = some v := by
  induction e with
  | nil => simp [envHasKey] at h
  | cons p rest ih =>
    rw [List.map_cons]
    by_cases hpk : p.1 = k
    · rw [if_pos hpk]
      simp [envGet]
    · rw [if_neg hpk]
      have h2 : envHasKey rest k = true := by
        simpa [envHasKey, hpk] using h
      simp only [envGet]
      rw [if_neg hpk]
      exact ih h2

theorem envGet_append_right (e : List (String × String)) (k v : String)
    (h : envHasKey e k = false) :
    envGet (e ++ [(k, v)]) k = some v := by
  induction e with
  | nil => simp [envGet]
  | cons p rest ih =>
    have h1 : ¬ p.1 = k := by
      intro hc
      simp [envHasKey, hc] at h
    have h2 : envHasKey rest k = false := by
      simpa [envHasKey, h1] using h
    simpa [envGet, h1] using ih h2

theorem envGet_envSet_self (e : List (String × String)) (k v : String) :
    envGet (envSet e k v) k = some v := by
  unfold envSet
  by_cases h : envHasKey e k
  · rw [if_pos h]
    exact envGet_map_overwrite e k v h
  · rw [if_neg h]
    exact envGet_append_right e k v (by simpa using h)

theorem envGet_map_overwrite_ne (e : List (String × String)) (k v k2 : String)
    (h : ¬ k = k2) :
    envGet (e.map (fun p => if p.1 = k then (k, v) else p)) k2 = envGet e k2 := by
  induction e with
  | nil => rfl
  | cons p rest ih =>
    rw [List.map_cons]
    by_cases hpk : p.1 = k
    · have hp2 : ¬ p.1 = k2 := by
        rw [hpk]; exact h
      rw [if_pos hpk]
      simp only [envGet]
      rw [if_neg h, if_neg hp2]
      exact ih
    · rw [if_neg hpk]
      by_cases hp2 : p.1 = k2
      · simp only [envGet]
        rw [if_pos hp2, if_pos hp2]
      · simp only [envGet]
        rw [if_neg hp2, if_neg hp2]
        exact ih

theorem envGet_append_ne (e : List (String × String)) (k v k2 : String)
    (h : ¬ k = k2) :
    envGet (e ++ [(k, v)]) k2 = envGet e k2 := by
  induction e with
  | nil =>
    simp only [List.nil_append, envGet]
    rw [if_neg h]
  | cons p rest ih =>
    by_cases hp2 : p.1 = k2
    · simp only [List.cons_append, envGet]
      rw [if_pos hp2, if_pos hp2]
    · simp only [List.cons_append, envGet]
      rw [if_neg hp2, if_neg hp2]
      exact ih

theorem envGet_envSet_ne (e : List (String × String)) (k v k2 : String)
    (h : ¬ k = k2) :
    envGet (envSet e k v) k2 = envGet e k2 := by
  unfold envSet
  by_cases hk : envHasKey e k
  · rw [if_pos hk]
    exact envGet_map_overwrite_ne e k v k2 h
  · rw [if_neg hk]
    exact envGet_append_ne e k v k2 h

/-- Folding the remaining specification entries over an accumulator does
not touch a key that none of them bind. -/
theorem envGet_foldl_not_mem (spec : List (String × SpecValue))
    (e : List (String × String)) (k : String) (h : k ∉ spec.map Prod.fst) :
    envGet (spec.foldl (fun a kv => envSet a kv.1 (coerceValue kv.2)) e) k
      = envGet e k := by
  induction spec generalizing e with
  | nil => rfl
  | cons kv rest ih =>
    have h1 : ¬ kv.1 = k := by
      intro hc
      exact h (by simp [hc])
    have h2 : k ∉ rest.map Prod.fst := by
      intro hc
      exact h (by simp [hc])
    rw [List.foldl_cons, ih (envSet e kv.1 (coerceValue kv.2)) h2,
        envGet_envSet_ne e kv.1 (coerceValue kv.2) k h1]

/-- With pairwise distinct specification keys, each entry determines the
final environment's binding of its key. -/
theorem envGet_foldl_mem (spec : List (String × SpecValue))
    (e : List (String × String)) (k : String) (v : SpecValue)
    (hnodup : (spec.map Prod.fst).Nodup) (hmem : (k, v) ∈ spec) :
    envGet (spec.foldl (fun a kv => envSet a kv.1 (coerceValue kv.2)) e) k
      = some (coerceValue v) := by
  induction spec generalizing e with
  | nil => simp at hmem
  | cons kv rest ih =>
    rw [List.map_cons, List.nodup_cons] at hnodup
    rcases List.mem_cons.1 hmem with heq | hrest
    · rw [List.foldl_cons, ← heq]
      rw [← heq] at hnodup
      rw [envGet_foldl_not_mem rest (envSet e k (coerceValue v)) k hnodup.1,
          envGet_envSet_self]
    · exact ih (envSet e kv.1 (coerceValue kv.2)) hnodup.2 hrest

/-- Key set of the fold: the accumulator's keys together with the
specification's keys. -/
theorem mem_keys_foldl (spec : List (String × SpecValue))
    (e : List (String × String)) (k : String) :
    k ∈ ((spec.foldl (fun a kv => envSet a kv.1 (coerceValue kv.2)) e).map
          Prod.fst)
      ↔ k ∈ e.map Prod.fst ∨ k ∈ spec.map Prod.fst := by
  induction spec generalizing e with
  | nil => simp
  | cons kv rest ih =>
    rw [List.foldl_cons, ih (envSet e kv.1 (coerceValue kv.2))]
    rw [mem_keys_envSet]
    simp
    tauto

/-! ### Lemmas about output handling -/

/-- The lines a sequence of reads contributes to every sink: empty reads
are skipped, every other read contributes its newline-stripped form, in
read order. -/
def emittedLines : List String → List String
  | [] => []
  | r :: rs => if r = "" then emittedLines rs else stripNL r :: emittedLines rs

theorem emittedLines_append (rs1 rs2 : List String) :
    emittedLines (rs1 ++ rs2) = emittedLines rs1 ++ emittedLines rs2 := by
  induction rs1 with
  | nil => rfl
  | cons r rs ih =>
    by_cases hr : r = "" <;> simp [emittedLines, hr, ih]

theorem handle_output_empty (pr : ProcessRunnerState) (pid : String)
    (st : OutputState) :
    handle_output pr pid st "" = st := by
  simp [handle_output]

/-- With all three sinks enabled, one `handle_output` of a nonempty chunk
appends the stripped line to each sink. -/
theorem handle_output_all_sinks (pr : ProcessRunnerState) (pid : String)
    (st : OutputState) (r : String) (hr : ¬ r = "")
    (hpe : pr.echo_stdout = true) (hpl : pr.log_path.isSome = true)
    (hph : pr.hasHandler = true) :
    handle_output pr pid st r =
      ⟨st.console ++ [consoleLine pr.name pid (stripNL r)],
       st.logWrites ++ [stripNL r ++ "\n"],
       st.handled ++ [stripNL r]⟩ := by
  simp [handle_output, hr, hpe, hpl, hph]

/-- With all three sinks enabled, the read loop appends to each sink
exactly the emitted lines, in order. -/
theorem processLoop_traces (pr : ProcessRunnerState) (pid : String)
    (hpe : pr.echo_stdout = true) (hpl : pr.log_path.isSome = true)
    (hph : pr.hasHandler = true) :
    ∀ (rs : List String) (st : OutputState),
      processLoop pr pid rs st =
        ⟨st.console ++ (emittedLines rs).map (consoleLine pr.name pid),
         st.logWrites ++ (emittedLines rs).map (fun l => l ++ "\n"),
         st.handled ++ emittedLines rs⟩ := by
  intro rs
  induction rs with
  | nil =>
    intro st
    simp [processLoop, emittedLines]
  | cons r rs ih =>
    intro st
    by_cases hr : r = ""
    · rw [processLoop, hr, handle_output_empty, ih st]
      simp [emittedLines]
    · rw [processLoop, handle_output_all_sinks pr pid st r hr hpe hpl hph, ih]
      simp [emittedLines, hr]

/-! ### Claim theorems -/

/-- C7: for every task specification entry, the environment value is
coerced as follows — a list value becomes its elements joined with ","
(so ["a","b","c"] maps to exactly "a,b,c"), an integer becomes its
standard decimal string form (a float its standard rendering), and any
other value passes through unchanged; and the entry's value is what the
final environment binds to the entry's key even when the key collides
with a base-environment key (the specification wins). -/
theorem spec_env_coercion_overwrite (condaExists : Bool)
    (spec : List (String × SpecValue)) (k : String) (v : SpecValue)
    (hnodup : (spec.map Prod.fst).Nodup) (hmem : (k, v) ∈ spec) :
    envGet (buildEnv condaExists spec) k =
      some (match v with
        | SpecValue.vstr s => s
        | SpecValue.vlist l => String.intercalate "," l
        | SpecValue.vint n => toString n
        | SpecValue.vfloat r => r) := by
  have h := envGet_foldl_mem spec (baseEnv condaExists) k v hnodup hmem
  rw [buildEnv, h]
  cases v <;> rfl

theorem spec_env_coercion_overwrite_witness :
    envGet (buildEnv true
        [("PYTHONPATH", SpecValue.vstr "overridden"),
         ("VARIABLE", SpecValue.vlist ["a", "b", "c"])]) "VARIABLE"
      = some "a,b,c" := by
  have h := spec_env_coercion_overwrite true
    [("PYTHONPATH", SpecValue.vstr "overridden"),
     ("VARIABLE", SpecValue.vlist ["a", "b", "c"])]
    "VARIABLE" (SpecValue.vlist ["a", "b", "c"]) (by decide) (by decide)
  rw [h]
  rfl

/-- C10: the environment passed to the subprocess is independent of the
daemon process's own environment (two runs with equal task specifications
and the same conda probe yield equal environments whatever the parent
environment is), and its key set is exactly the three base keys
PYTHONPATH, CONDA_PATH, OUT_PATH plus the specification's keys. -/
theorem subprocess_env_closed (parent1 parent2 : List (String × String))
    (condaExists : Bool) (spec : List (String × SpecValue)) (k : String) :
    subprocessEnv parent1 condaExists spec = subprocessEnv parent2 condaExists spec
    ∧ (k ∈ (buildEnv condaExists spec).map Prod.fst ↔
        k = "PYTHONPATH" ∨ k = "CONDA_PATH" ∨ k = "OUT_PATH"
          ∨ k ∈ spec.map Prod.fst) := by
  constructor
  · rfl
  · rw [buildEnv, mem_keys_foldl]
    simp [baseEnv]
    tauto

/-- C9: TaskRunner constructs its ProcessRunner with every optional
argument defaulted, so the timeout is -1, no ProcessMonitor is ever
started, the timed-out component of the returned pair is always false
whatever the watchdog inputs would have been, and the task's success is
equivalent to exit code 0. -/
theorem taskrunner_no_watchdog (moduleDir : String) (condaExists : Bool)
    (task : Task) (beh : ProcessBehavior) (monitorExpired rcNoneAtExpiry : Bool) :
    (TaskRunner.makeRunner moduleDir condaExists task).timeout = -1
    ∧ monitorStarted (TaskRunner.makeRunner moduleDir condaExists task) = false
    ∧ (ProcessRunner.runOutcome (TaskRunner.makeRunner moduleDir condaExists task)
        beh monitorExpired rcNoneAtExpiry).2 = false
    ∧ (TaskRunner.runSuccess moduleDir condaExists task beh monitorExpired
          rcNoneAtExpiry = true
        ↔ beh.exit_code = 0) := by
  refine ⟨rfl, rfl, ?_, ?_⟩
  · simp [ProcessRunner.runOutcome, monitorStarted, TaskRunner.makeRunner,
      ProcessRunner.initDefault]
  · simp [TaskRunner.runSuccess, ProcessRunner.runOutcome, monitorStarted,
      TaskRunner.makeRunner, ProcessRunner.initDefault]

/-- C8: with all three sinks enabled, every complete line read while the
subprocess ran is processed in emission order — echoed to the console,
appended to the log as one newline-terminated write, and forwarded to the
line handler — with no line reordered or lost, and the single final drain
read after exit flows through the same handling before the runner
returns: each sink's trace is exactly the emitted lines of the reads
followed by those of the drain. -/
theorem output_line_ordering (pr : ProcessRunnerState) (pid : String)
    (beh : ProcessBehavior) (hpe : pr.echo_stdout = true)
    (hpl : pr.log_path.isSome = true) (hph : pr.hasHandler = true) :
    ProcessRunner.runOutputs pr pid beh =
      ⟨(emittedLines (beh.reads ++ [beh.drain])).map (consoleLine pr.name pid),
       (emittedLines (beh.reads ++ [beh.drain])).map (fun l => l ++ "\n"),
       emittedLines (beh.reads ++ [beh.drain])⟩ := by
  rw [ProcessRunner.runOutputs,
    processLoop_traces pr pid hpe hpl hph beh.reads ⟨[], [], []⟩,
    emittedLines_append]
  by_cases hd : beh.drain = ""
  · rw [hd, handle_output_empty]
    simp [emittedLines]
  · rw [handle_output_all_sinks pr pid _ beh.drain hd hpe hpl hph]
    simp [emittedLines, hd]

theorem output_line_ordering_witness :
    ProcessRunner.runOutputs
        ⟨"/d/subset_task_runner.sh", [], "t1", true, some "/tmp/log", none, -1,
          false, true⟩
        "99" ⟨["alpha\n", "", "beta\n"], "gamma", 7⟩
      = ⟨["[t1:99]: alpha", "[t1:99]: beta", "[t1:99]: gamma"],
         ["alpha\n", "beta\n", "gamma\n"],
         ["alpha", "beta", "gamma"]⟩ := by
  have h := output_line_ordering
    ⟨"/d/subset_task_runner.sh", [], "t1", true, some "/tmp/log", none, -1,
      false, true⟩
    "99" ⟨["alpha\n", "", "beta\n"], "gamma", 7⟩ rfl rfl rfl
  rw [h]
  decide

/-- C6: the ProcessMonitor has exactly two outcomes — released before the
deadline means it exits with no side effects; and when the deadline
expires first it acts only when no exit code has been recorded, in which
case it sets the timed-out flag, SIGTERMs the process group, sleeps the
fixed 5-second grace period, then SIGKILLs the process group — and no
error raised while signalling an already-dead process group ever
propagates out of the monitor. -/
theorem monitor_outcomes (released : Bool) (return_code : Option Int)
    (sigterm_raises sigkill_raises : Bool) :
    (released = true →
      ProcessMonitor.run released return_code sigterm_raises sigkill_raises
        = ⟨false, [], false⟩)
    ∧ (released = false → (∃ c, return_code = some c) →
      ProcessMonitor.run released return_code sigterm_raises sigkill_raises
        = ⟨false, [], false⟩)
    ∧ (released = false → return_code = none → sigterm_raises = false →
      ProcessMonitor.run released return_code sigterm_raises sigkill_raises
        = ⟨true, [MonitorAction.sigterm_pg, MonitorAction.grace_sleep 5,
                  MonitorAction.sigkill_pg], false⟩)
    ∧ (ProcessMonitor.run released return_code sigterm_raises
        sigkill_raises).raised = false := by
  refine ⟨?_, ?_, ?_, ?_⟩
  · intro h
    rw [h]
    rfl
  · rintro h ⟨c, hc⟩
    rw [h, hc]
    simp [ProcessMonitor.run, timeout_if_not_complete]
  · intro h hc hs
    rw [h, hc, hs]
    rfl
  · cases released
    · cases return_code
      · cases sigterm_raises <;> rfl
      · rfl
    · rfl

theorem monitor_outcomes_witness :
    ProcessMonitor.run false none false false
      = ⟨true, [MonitorAction.sigterm_pg, MonitorAction.grace_sleep 5,
                MonitorAction.sigkill_pg], false⟩ :=
  (monitor_outcomes false none false false).2.2.1 rfl rfl rfl

/-- C1 counterexample: a task that has exhausted its retries and fails is
marked failed with reason "Unknown error", not with the claimed reason
"process execution failed". -/
theorem failed_reason_counterexample :
    (Daemon.run_task 2
        (Task.set_running ⟨"j1", "t1", "regrid", [], TaskStatus.queued, 2⟩)
        false).2.1.status
      = TaskStatus.failed "Unknown error"
    ∧ ¬ (Daemon.run_task 2
        (Task.set_running ⟨"j1", "t1", "regrid", [], TaskStatus.queued, 2⟩)
        false).2.1.status
      = TaskStatus.failed "process execution failed" := by
  decide

/-- C1 (amended): for every claimed task whose execution fails, the Daemon
reads the retry count; if it is below max_retries it increments the retry
count, marks the task queued, requeues it and persists it; otherwise it
marks the task failed with reason "Unknown error", persists it, and does
not requeue it. -/
theorem run_task_failure_branches (max_retries : Nat) (task : Task) :
    (task.retry_count < max_retries →
      Daemon.run_task max_retries task false =
        (false, task.retry,
         [DaemonEffect.queue_task task.job_id task.task_name,
          DaemonEffect.update_task task.retry])
      ∧ (task.retry).retry_count = task.retry_count + 1
      ∧ (task.retry).status = TaskStatus.queued)
    ∧ (¬ task.retry_count < max_retries →
      Daemon.run_task max_retries task false =
        (false, task.set_failed "Unknown error",
         [DaemonEffect.update_task (task.set_failed "Unknown error")])
      ∧ (task.set_failed "Unknown error").status
          = TaskStatus.failed "Unknown error") := by
  constructor
  · intro h
    refine ⟨?_, rfl, rfl⟩
    simp [Daemon.run_task, Task.get_retry_count, h]
  · intro h
    refine ⟨?_, rfl⟩
    simp [Daemon.run_task, Task.get_retry_count, h]

theorem run_task_failure_branches_witness :
    Daemon.run_task 2 ⟨"j1", "t1", "regrid", [], TaskStatus.running, 0⟩ false =
      (false, Task.retry ⟨"j1", "t1", "regrid", [], TaskStatus.running, 0⟩,
       [DaemonEffect.queue_task "j1" "t1",
        DaemonEffect.update_task
          (Task.retry ⟨"j1", "t1", "regrid", [], TaskStatus.running, 0⟩)]) :=
  ((run_task_failure_branches 2
      ⟨"j1", "t1", "regrid", [], TaskStatus.running, 0⟩).1 (by decide)).1

/-- C2 counterexample: on a failing attempt with retry_count below
max_retries — a non-terminal attempt — the loop iteration nevertheless
issues the job-progress notification `update_job`. -/
theorem nonterminal_notification_counterexample :
    DaemonEffect.update_job "j1" ∈
      (Daemon.runIteration 2 ⟨"j1", "t1", "regrid", [], TaskStatus.queued, 0⟩
        false).2 := by
  decide

/-- C2 (amended): for a claimed task whose subprocess attempt fails while
retry_count < max_retries, the retry count is incremented by exactly 1 and
the task is re-queued, no results are packaged, and — unlike the claim —
the job-progress notification `update_job` is still issued, as the loop
issues it after every claimed task, terminal or not. -/
theorem retry_attempt_effects (max_retries : Nat) (task : Task)
    (h : task.retry_count < max_retries) :
    Daemon.runIteration max_retries task false =
      (task.set_running.retry,
       [DaemonEffect.update_task task.set_running,
        DaemonEffect.queue_task task.job_id task.task_name,
        DaemonEffect.update_task task.set_running.retry,
        DaemonEffect.update_job task.job_id])
    ∧ (task.set_running.retry).retry_count = task.retry_count + 1
    ∧ (task.set_running.retry).status = TaskStatus.queued
    ∧ (∀ t, DaemonEffect.zip_results t ∉
        (Daemon.runIteration max_retries task false).2) := by
  have heq : Daemon.runIteration max_retries task false =
      (task.set_running.retry,
       [DaemonEffect.update_task task.set_running,
        DaemonEffect.queue_task task.job_id task.task_name,
        DaemonEffect.update_task task.set_running.retry,
        DaemonEffect.update_job task.job_id]) := by
    simp [Daemon.runIteration, Daemon.run_task, Task.get_retry_count,
      Task.set_running, h]
  refine ⟨heq, rfl, rfl, ?_⟩
  intro t
  rw [heq]
  simp

theorem retry_attempt_effects_witness :
    Daemon.runIteration 2 ⟨"j1", "t1", "regrid", [], TaskStatus.queued, 0⟩
        false =
      (Task.retry
        (Task.set_running ⟨"j1", "t1", "regrid", [], TaskStatus.queued, 0⟩),
       [DaemonEffect.update_task
          (Task.set_running ⟨"j1", "t1", "regrid", [], TaskStatus.queued, 0⟩),
        DaemonEffect.queue_task "j1" "t1",
        DaemonEffect.update_task
          (Task.retry
            (Task.set_running ⟨"j1", "t1", "regrid", [], TaskStatus.queued, 0⟩)),
        DaemonEffect.update_job "j1"]) :=
  (retry_attempt_effects 2 ⟨"j1", "t1", "regrid", [], TaskStatus.queued, 0⟩
    (by decide)).1

/-- C3: evaluation of the loop at a launch failure. A task whose
executable cannot be started (`subprocess.Popen` raising
FileNotFoundError) makes the exception escape the loop iteration —
`Daemon.run` contains no try/except — so the daemon thread dies and the
task is left in `running`, never transitioned to `failed`; the spec
requires such failures to be caught at the loop boundary and converted
into a task-state transition. -/
theorem launch_failure_escapes_loop :
    Daemon.runIterationE 2 ⟨"j1", "t1", "regrid", [], TaskStatus.queued, 0⟩
        (TaskRunner.runE (some "FileNotFoundError") "/d" true
          ⟨"j1", "t1", "regrid", [], TaskStatus.queued, 0⟩ ⟨[], "", 0⟩
          false false)
      = ⟨[DaemonEffect.update_task
            (Task.set_running ⟨"j1", "t1", "regrid", [], TaskStatus.queued, 0⟩)],
         Task.set_running ⟨"j1", "t1", "regrid", [], TaskStatus.queued, 0⟩,
         some "FileNotFoundError"⟩ := by
  decide

/-- C4: for every claimed task whose subprocess exits with code 0 (and,
the watchdog never being armed by TaskRunner, is not timed out), the loop
iteration marks the task completed, persists that state, packages the
results, and issues the job-progress notification exactly once. -/
theorem success_completed_notified_once (max_retries : Nat)
    (moduleDir : String) (condaExists : Bool) (task : Task)
    (beh : ProcessBehavior) (monitorExpired rcNoneAtExpiry : Bool)
    (h : beh.exit_code = 0) :
    Daemon.runIteration max_retries task
        (TaskRunner.runSuccess moduleDir condaExists task beh monitorExpired
          rcNoneAtExpiry) =
      (task.set_running.set_completed,
       [DaemonEffect.update_task task.set_running,
        DaemonEffect.update_task task.set_running.set_completed,
        DaemonEffect.zip_results task.set_running.set_completed,
        DaemonEffect.update_job task.job_id])
    ∧ (task.set_running.set_completed).status = TaskStatus.completed
    ∧ ((Daemon.runIteration max_retries task
          (TaskRunner.runSuccess moduleDir condaExists task beh monitorExpired
            rcNoneAtExpiry)).2.filter isUpdateJob).length = 1 := by
  have hok : TaskRunner.runSuccess moduleDir condaExists task beh
      monitorExpired rcNoneAtExpiry = true := by
    simp [TaskRunner.runSuccess, ProcessRunner.runOutcome, monitorStarted,
      TaskRunner.makeRunner, ProcessRunner.initDefault, h]
  rw [hok]
  have heq : Daemon.runIteration max_retries task true =
      (task.set_running.set_completed,
       [DaemonEffect.update_task task.set_running,
        DaemonEffect.update_task task.set_running.set_completed,
        DaemonEffect.zip_results task.set_running.set_completed,
        DaemonEffect.update_job task.job_id]) := by
    simp [Daemon.runIteration, Daemon.run_task]
  refine ⟨heq, rfl, ?_⟩
  rw [heq]
  simp [isUpdateJob]

theorem success_completed_notified_once_witness :
    Daemon.runIteration 2 ⟨"j1", "t1", "regrid", [], TaskStatus.queued, 0⟩
        (TaskRunner.runSuccess "/d" true
          ⟨"j1", "t1", "regrid", [], TaskStatus.queued, 0⟩ ⟨[], "", 0⟩
          false false) =
      (Task.set_completed
        (Task.set_running ⟨"j1", "t1", "regrid", [], TaskStatus.queued, 0⟩),
       [DaemonEffect.update_task
          (Task.set_running ⟨"j1", "t1", "regrid", [], TaskStatus.queued, 0⟩),
        DaemonEffect.update_task
          (Task.set_completed
            (Task.set_running ⟨"j1", "t1", "regrid", [], TaskStatus.queued, 0⟩)),
        DaemonEffect.zip_results
          (Task.set_completed
            (Task.set_running ⟨"j1", "t1", "regrid", [], TaskStatus.queued, 0⟩)),
        DaemonEffect.update_job "j1"]) :=
  (success_completed_notified_once 2 "/d" true
    ⟨"j1", "t1", "regrid", [], TaskStatus.queued, 0⟩ ⟨[], "", 0⟩
    false false rfl).1

/-- C5 counterexample: a task whose type tag is outside the known set is
not failed — TaskRunner silently selects the default subset pipeline
script, and with a cleanly exiting subprocess the task outcome is
success. -/
theorem unknown_type_counterexample :
    TaskRunner.selectScript "/d" "unknown_type" = "/d/subset_task_runner.sh"
    ∧ TaskRunner.runSuccess "/d" true
        ⟨"j1", "t1", "unknown_type", [], TaskStatus.running, 0⟩ ⟨[], "", 0⟩
        false false = true := by
  constructor
  · rfl
  · rfl

/-- C5 (amended): for every task whose type tag is not "regrid" — unknown
tags included — TaskRunner silently runs the default subset pipeline
executable, and the task outcome is determined by the subprocess exit
code alone, not failed on account of the unknown type. -/
theorem unknown_type_runs_subset (moduleDir : String) (condaExists : Bool)
    (task : Task) (beh : ProcessBehavior) (monitorExpired rcNoneAtExpiry : Bool)
    (h : ¬ task.task_type = "regrid") :
    (TaskRunner.makeRunner moduleDir condaExists task).cmd
        = moduleDir ++ "/subset_task_runner.sh"
    ∧ (TaskRunner.runSuccess moduleDir condaExists task beh monitorExpired
          rcNoneAtExpiry = true
        ↔ beh.exit_code = 0) := by
  constructor
  · simp [TaskRunner.makeRunner, ProcessRunner.initDefault,
      TaskRunner.selectScript, h]
  · simp [TaskRunner.runSuccess, ProcessRunner.runOutcome, monitorStarted,
      TaskRunner.makeRunner, ProcessRunner.initDefault]

theorem unknown_type_runs_subset_witness :
    (TaskRunner.makeRunner "/d" true
        ⟨"j1", "t1", "unknown_type", [], TaskStatus.running, 0⟩).cmd
      = "/d/subset_task_runner.sh" :=
  (unknown_type_runs_subset "/d" true
    ⟨"j1", "t1", "unknown_type", [], TaskStatus.running, 0⟩ ⟨[], "", 0⟩
    false false (by decide)).1

end DataProcessor
